import Mathlib

/-!
Verification development for the virt-perf-scripts repository.

Part 1 models `src/block/RunFioTest.py` (a Python 2 script): parameter
validation in `FioTestRunner.__init__`, the sweep enumeration in
`_split_fio_tests`, the fio command construction and file-system effects in
`run_tests`, and the CLI parameter collection in `get_cli_params`.

Part 2 models `src/network-np/GenerateNetworkTestReport.py` (a Python 3
script): the directory scan with tarball support in
`load_raw_data_from_netperf_logs`, KPI extraction in
`_get_kpis_from_raw_data`, the KPI accumulation in
`calculate_performance_kpis`, the report dataframe construction and
formatting, and the top-level `generate_netperf_test_report` driver.

Machine integers do not occur (Python integers are unbounded); Python ints
are modelled as `Int`, JSON numbers as `Rat` (the scripts do no arithmetic
on them beyond pandas `round(4)`, modelled exactly over rationals; the
binary floating-point representation used by pandas is not modelled).
-/

namespace VirtPerf

/-! ### Python string helpers

The scripts use `str.endswith`, `str.replace` and `str.split`, and pandas
compares strings by code points.  The Lean `String` builtins for these are
not kernel-reducible, so the model implements them over `List Char`, which
matches Python semantics (code-point based, all occurrences replaced,
leftmost first, non-overlapping).
-/

/-- Python `s.endswith(suffix)`. -/
def pyEndsWith (s suffix : String) : Bool :=
  suffix.data.isSuffixOf s.data

/-- Replace all occurrences of `pat` (nonempty in every use below) in a
character list, leftmost first, non-overlapping, as Python `str.replace`.
The `skip` counter swallows the remaining characters of a match already
emitted, which keeps the recursion structural on the list. -/
def replaceGo (pat rep : List Char) : List Char → Nat → List Char
  | [], _ => []
  | _ :: rest, Nat.succ k => replaceGo pat rep rest k
  | c :: rest, 0 =>
    if pat.isPrefixOf (c :: rest) ∧ pat ≠ [] then
      rep ++ replaceGo pat rep rest (pat.length - 1)
    else
      c :: replaceGo pat rep rest 0

/-- Python `s.replace(pat, rep)`. -/
def pyReplace (s pat rep : String) : String :=
  String.mk (replaceGo pat.data rep.data s.data 0)

/-- Split a character list at commas; Python `s.split(',')`. -/
def splitCommaChars : List Char → List (List Char)
  | [] => [[]]
  | c :: rest =>
    match splitCommaChars rest with
    | [] => [[]]
    | w :: ws => if c = ',' then [] :: w :: ws else (c :: w) :: ws

/-- Python `s.split(',')`. -/
def pySplitComma (s : String) : List String :=
  (splitCommaChars s.data).map String.mk

/-- A single-quote character, used when rendering Python `repr` output. -/
def sq : String :=
  String.singleton (Char.ofNat 39)

/-! ### Part 1: model of `src/block/RunFioTest.py` -/

/-- An atomic Python value inside a list (the lists handled by the script
hold strings from `str.split` or scalars from the YAML defaults file;
nested containers never occur and are not modelled). -/
inductive PAtom where
  | str (s : String)
  | int (n : Int)
deriving DecidableEq

/-- A Python value stored in the `params` dict.  `str` covers both Python 2
`str` and `unicode` (the script accepts either); Python `bool` (an `int`
subclass) and `float` are not modelled, as no claim involves them. -/
inductive PVal where
  | str (s : String)
  | int (n : Int)
  | list (xs : List PAtom)
deriving DecidableEq

/-- The `params` dict, as an association list; the first binding for a key
wins (see `mergeParams`). -/
abbrev Params := List (String × PVal)

/-- Python `'%s' % atom`. -/
def pAtomStr : PAtom → String
  | .str s => s
  | .int n => toString n

/-- The validated configuration stored on the `FioTestRunner` instance
(`self.backend` … `self.log_path`). -/
structure FioConfig where
  backend : String
  driver : String
  fs : String
  rounds : Int
  filename : String
  runtime : String
  direct : Int
  numjobs : Int
  rw_list : List PAtom
  bs_list : List PAtom
  iodepth_list : List PAtom
  log_path : String
deriving DecidableEq

/-- One string-typed parameter check in `FioTestRunner.__init__`:
missing key or non-string value is an error, otherwise the value is kept. -/
def checkStr (params : Params) (key : String) : Except String String :=
  match params.lookup key with
  | none => .error ("ERROR: Missing required params: params[" ++ key ++ "]")
  | some (.str s) => .ok s
  | some _ => .error ("ERROR: params[" ++ key ++ "] must be string.")

/-- The `rounds` check: must be an `int` and at least 1
(`not isinstance(params['rounds'], int) or params['rounds'] < 1`). -/
def checkRounds (params : Params) : Except String Int :=
  match params.lookup "rounds" with
  | none => .error "ERROR: Missing required params: params[rounds]"
  | some (.int n) =>
    if n < 1 then .error "ERROR: params[rounds] must be an integer >= 1."
    else .ok n
  | some _ => .error "ERROR: params[rounds] must be an integer >= 1."

/-- The `direct` check: `params['direct'] in (0, 1)`, a membership test
against the integers 0 and 1 (a string value such as `'1'` fails it). -/
def checkDirect (params : Params) : Except String Int :=
  match params.lookup "direct" with
  | none => .error "ERROR: Missing required params: params[direct]"
  | some (.int n) =>
    if n = 0 ∨ n = 1 then .ok n
    else .error "ERROR: params[direct] must be integer 0 or 1."
  | some _ => .error "ERROR: params[direct] must be integer 0 or 1."

/-- The `numjobs` check: only `isinstance(params['numjobs'], int)`;
no range restriction. -/
def checkNumjobs (params : Params) : Except String Int :=
  match params.lookup "numjobs" with
  | none => .error "ERROR: Missing required params: params[numjobs]"
  | some (.int n) => .ok n
  | some _ => .error "ERROR: params[numjobs] must be an integer."

/-- One list-typed parameter check (`isinstance(..., (list, tuple))`). -/
def checkList (params : Params) (key : String) : Except String (List PAtom) :=
  match params.lookup key with
  | none => .error ("ERROR: Missing required params: params[" ++ key ++ "]")
  | some (.list xs) => .ok xs
  | some _ => .error ("ERROR: params[" ++ key ++ "] must be a list or tuple.")

/-- `FioTestRunner.__init__`: the twelve checks in source order; the first
failing check prints its error and the process exits with code 1, modelled
as `Except.error` carrying the printed message. -/
def validateParams (params : Params) : Except String FioConfig := do
  let backend ← checkStr params "backend"
  let driver ← checkStr params "driver"
  let fs ← checkStr params "fs"
  let rounds ← checkRounds params
  let filename ← checkStr params "filename"
  let runtime ← checkStr params "runtime"
  let direct ← checkDirect params
  let numjobs ← checkNumjobs params
  let rw_list ← checkList params "rw_list"
  let bs_list ← checkList params "bs_list"
  let iodepth_list ← checkList params "iodepth_list"
  let log_path ← checkStr params "log_path"
  return { backend, driver, fs, rounds, filename, runtime, direct, numjobs,
           rw_list, bs_list, iodepth_list, log_path }

/-- `FioTestRunner._split_fio_tests`:
`itertools.product(range(1, rounds + 1), bs_list, iodepth_list, rw_list)`,
the rightmost factor varying fastest. -/
def splitFioTests (cfg : FioConfig) : List (Nat × PAtom × PAtom × PAtom) :=
  (List.range' 1 cfg.rounds.toNat).flatMap fun rd =>
    cfg.bs_list.flatMap fun bs =>
      cfg.iodepth_list.flatMap fun iodepth =>
        cfg.rw_list.map fun rw => (rd, bs, iodepth, rw)

/-- The log file name built in `run_tests`
(`'fio_%s_%s_%s_%s_%s_%s_%s_%s_%s.fiolog' % (...)`); `ts` stands for the
`time.strftime` timestamp taken when the case starts. -/
def fioOutputFile (cfg : FioConfig) (rw bs iodepth : PAtom) (rd : Nat)
    (ts : String) : String :=
  "fio_" ++ cfg.backend ++ "_" ++ cfg.driver ++ "_" ++ cfg.fs ++ "_" ++
    pAtomStr rw ++ "_" ++ pAtomStr bs ++ "_" ++ pAtomStr iodepth ++ "_" ++
    toString cfg.numjobs ++ "_" ++ toString rd ++ "_" ++ ts ++ ".fiolog"

/-- The Python 2 `repr` of the description dict
`{'backend': ..., 'driver': ..., 'format': ..., 'round': rd}`, rendered in
source order (CPython 2 iterates dict keys in hash order; no claim depends
on the key order). -/
def descriptionRepr (cfg : FioConfig) (rd : Nat) : String :=
  "\x7b" ++ sq ++ "backend" ++ sq ++ ": " ++ sq ++ cfg.backend ++ sq ++
    ", " ++ sq ++ "driver" ++ sq ++ ": " ++ sq ++ cfg.driver ++ sq ++
    ", " ++ sq ++ "format" ++ sq ++ ": " ++ sq ++ cfg.fs ++ sq ++
    ", " ++ sq ++ "round" ++ sq ++ ": " ++ toString rd ++ "\x7d"

/-- `os.path.expanduser`; home-directory expansion of a leading `~` is not
modelled (no claim involves it). -/
def expandUser (s : String) : String := s

/-- The successive `command += ...` pieces of the fio command built in
`run_tests`, in source order. -/
def fioCommandPieces (cfg : FioConfig) (rd : Nat) (bs iodepth rw : PAtom)
    (ts : String) : List String :=
  [ " --name=" ++ fioOutputFile cfg rw bs iodepth rd ts,
    " --filename=" ++ cfg.filename,
    " --size=512M",
    " --direct=" ++ toString cfg.direct,
    " --rw=" ++ pAtomStr rw,
    " --bs=" ++ pAtomStr bs,
    " --ioengine=libaio",
    " --iodepth=" ++ pAtomStr iodepth,
    " --numjobs=" ++ toString cfg.numjobs,
    " --time_based",
    " --runtime=" ++ cfg.runtime,
    " --group_reporting",
    " --description=\"" ++ descriptionRepr cfg rd ++ "\"",
    " --output-format=normal,json+",
    " --output=" ++ expandUser cfg.log_path ++ "/" ++
      fioOutputFile cfg rw bs iodepth rd ts ]

/-- The full fio command string. -/
def fioCommand (cfg : FioConfig) (rd : Nat) (bs iodepth rw : PAtom)
    (ts : String) : String :=
  (fioCommandPieces cfg rd bs iodepth rw ts).foldl (· ++ ·) "fio"

/-- A file-system side effect performed by `run_tests`. -/
inductive FsEffect where
  | makedirs (path : String)
  | runCommand (cmd : String)
deriving DecidableEq

/-- The file-system effects of `FioTestRunner.run_tests`: per sweep case,
the output directory is created when absent (`os.makedirs`, modelled as an
idempotent `makedirs` effect) and the fio command is executed via
`os.system`, which writes the `.fiolog` output file. -/
def runTestsEffects (cfg : FioConfig) (ts : String) : List FsEffect :=
  (splitFioTests cfg).flatMap fun c =>
    [ .makedirs (expandUser cfg.log_path),
      .runCommand (fioCommand cfg c.1 c.2.2.1 c.2.2.2 c.2.1 ts) ]

/-- `run_fio_test` followed by `cli`'s `exit(0)`: validation failure exits
with code 1 before `run_tests` is reached (no file-system effect);
otherwise the sweep runs and the process exits 0. -/
def runFioTestModel (params : Params) (ts : String) : Nat × List FsEffect :=
  match validateParams params with
  | .error _ => (1, [])
  | .ok cfg => (0, runTestsEffects cfg ts)

/-- `get_cli_params`: each click option is copied into the dict only when
truthy (absent options are `None`; the empty string and the integer 0 are
falsy).  `rounds` and `numjobs` arrive as Python ints (click `IntRange`),
`direct` as a string (click `Choice(['0', '1'])`), the three lists are
comma-split strings. -/
def getCliParams (backend driver fs : Option String) (rounds : Option Int)
    (filename runtime : Option String) (direct : Option String)
    (numjobs : Option Int) (rw_list bs_list iodepth_list : Option String)
    (log_path : Option String) : Params :=
  (match backend with
   | some s => if s ≠ "" then [("backend", PVal.str s)] else []
   | none => []) ++
  (match driver with
   | some s => if s ≠ "" then [("driver", PVal.str s)] else []
   | none => []) ++
  (match fs with
   | some s => if s ≠ "" then [("fs", PVal.str s)] else []
   | none => []) ++
  (match rounds with
   | some n => if n ≠ 0 then [("rounds", PVal.int n)] else []
   | none => []) ++
  (match filename with
   | some s => if s ≠ "" then [("filename", PVal.str s)] else []
   | none => []) ++
  (match runtime with
   | some s => if s ≠ "" then [("runtime", PVal.str s)] else []
   | none => []) ++
  (match direct with
   | some s => if s ≠ "" then [("direct", PVal.str s)] else []
   | none => []) ++
  (match numjobs with
   | some n => if n ≠ 0 then [("numjobs", PVal.int n)] else []
   | none => []) ++
  (match rw_list with
   | some s => if s ≠ "" then
       [("rw_list", PVal.list ((pySplitComma s).map PAtom.str))] else []
   | none => []) ++
  (match bs_list with
   | some s => if s ≠ "" then
       [("bs_list", PVal.list ((pySplitComma s).map PAtom.str))] else []
   | none => []) ++
  (match iodepth_list with
   | some s => if s ≠ "" then
       [("iodepth_list", PVal.list ((pySplitComma s).map PAtom.str))] else []
   | none => []) ++
  (match log_path with
   | some s => if s ≠ "" then [("log_path", PVal.str s)] else []
   | none => [])

/-- `params.update(yaml_params); params.update(cli_params)`: the CLI value
wins over the YAML default for the same key. -/
def mergeParams (yamlParams cliParams : Params) : Params :=
  cliParams ++ yamlParams

/-- The click `IntRange(1, 65535)` declared on the `--numjobs` option:
the range is enforced by click on the CLI flag only. -/
def numjobsFlagAccepts (n : Int) : Prop :=
  1 ≤ n ∧ n ≤ 65535

/-- The twelve required keys of the `params` dict, in source check order. -/
def requiredKeys : List String :=
  ["backend", "driver", "fs", "rounds", "filename", "runtime", "direct",
   "numjobs", "rw_list", "bs_list", "iodepth_list", "log_path"]

/-- The acceptance condition each check of `FioTestRunner.__init__` places
on its field's value. -/
def fieldAccepts : String → PVal → Prop
  | "rounds", v => ∃ n : Int, v = .int n ∧ 1 ≤ n
  | "direct", v => v = .int 0 ∨ v = .int 1
  | "numjobs", v => ∃ n : Int, v = .int n
  | "rw_list", v => ∃ xs, v = .list xs
  | "bs_list", v => ∃ xs, v = .list xs
  | "iodepth_list", v => ∃ xs, v = .list xs
  | _, v => ∃ s, v = .str s

/-- The error messages `FioTestRunner.__init__` can print, one pair per
field, each naming the offending field. -/
def validationMessages : List String :=
  (requiredKeys.map fun k =>
    "ERROR: Missing required params: params[" ++ k ++ "]") ++
  ((["backend", "driver", "fs", "filename", "runtime", "log_path"].map
      fun k => "ERROR: params[" ++ k ++ "] must be string.") ++
    ["ERROR: params[rounds] must be an integer >= 1.",
     "ERROR: params[direct] must be integer 0 or 1.",
     "ERROR: params[numjobs] must be an integer.",
     "ERROR: params[rw_list] must be a list or tuple.",
     "ERROR: params[bs_list] must be a list or tuple.",
     "ERROR: params[iodepth_list] must be a list or tuple."])

/-- A fully valid CLI invocation of the sweep runner (all twelve flags
supplied with in-range values; `--direct 1` arrives from click as the
string `"1"`), merged with an empty YAML defaults dict. -/
def c4Invocation : Params :=
  mergeParams [] (getCliParams (some "HDD") (some "SCSI") (some "RAW")
    (some 1) (some "/dev/sdb") (some "60") (some "1") (some 4)
    (some "read,write") (some "4k,64k") (some "1,8") (some "/tmp/fio-log"))

/-- A small valid sweep configuration used to instantiate theorems. -/
def sampleFioConfig : FioConfig :=
  { backend := "HDD", driver := "SCSI", fs := "XFS", rounds := 2,
    filename := "/dev/sdb", runtime := "60", direct := 1, numjobs := 4,
    rw_list := [.str "read", .str "write"], bs_list := [.str "4k"],
    iodepth_list := [.str "1", .str "8"], log_path := "/tmp/logs" }

/-! ### Part 2: model of `src/network-np/GenerateNetworkTestReport.py` -/

/-- A JSON scalar as it appears in a netperf log: a string or a number.
JSON numbers are modelled as exact rationals; the binary floating point
used by `json`/pandas is not modelled. -/
inductive JVal where
  | str (s : String)
  | num (q : Rat)
deriving DecidableEq

/-- The nested per-test-type block `metadata['SERIES_META'][name]`. -/
structure SeriesBlock where
  throughput_units : String
  throughput : JVal
  transaction_rate : JVal
  mean_latency : JVal
deriving DecidableEq

/-- The `metadata` block of a parsed netperf log.  `series_meta` keeps the
keys of the JSON object in insertion order (Python 3.7+ dict order). -/
structure NpMetadata where
  driver : JVal
  rounds : JVal
  name : JVal
  m_size : JVal
  rr_size : JVal
  series_meta : List (String × SeriesBlock)
deriving DecidableEq

/-- A successfully parsed JSON document handed to KPI extraction: either
the JSON document `""` (which parses to the empty Python string, the one
value `_get_kpis_from_raw_data` rejects with a `(1, None)` return), or a
well-formed netperf record.  Other malformed documents would raise an
uncaught `KeyError` inside extraction; their effect on the pipeline is the
same as the unit-mismatch `raise` and they are not modelled separately. -/
inductive RawData where
  | emptyStr
  | record (metadata : NpMetadata)
deriving DecidableEq

/-- The streaming test-type identifiers of `_get_kpis_from_raw_data`. -/
def streamingNames : List String :=
  ["TCP_STREAM", "TCP_MAERTS", "UDP_STREAM", "UDP_MAERTS"]

/-- The request/response test-type identifiers. -/
def rrNames : List String :=
  ["TCP_RR", "TCP_CRR", "UDP_RR"]

/-- The `perf_kpi` dict being filled by `_get_kpis_from_raw_data`; a
`none` field is a key never assigned (the silent gap for unrecognized
test-type identifiers). -/
structure PerfKpi where
  driver : Option JVal
  round : Option JVal
  test : Option JVal
  msize : Option JVal
  rrsize : Option JVal
  throughput : Option JVal
  transrate : Option JVal
  latency : Option JVal
deriving DecidableEq

/-- The loop body of `_get_kpis_from_raw_data` over
`metadata['SERIES_META'].keys()`: streaming names set `msize` from
metadata, `rrsize = '0'`, check the throughput unit (raising on mismatch),
and set `throughput`, `transrate = 'NaN'` and `latency`; RR names set
`msize = '0'`, `rrsize` from metadata, `throughput = 'NaN'`,
`transrate` and `latency`; other names assign nothing. -/
def processSeries (md : NpMetadata) :
    PerfKpi → List (String × SeriesBlock) → Except String PerfKpi
  | kpi, [] => .ok kpi
  | kpi, (nm, blk) :: rest =>
    if nm ∈ streamingNames then
      -- `perf_kpi['msize']`/`perf_kpi['rrsize']` are assigned before the
      -- unit check, but the raise discards the dict, so the intermediate
      -- assignment is unobservable.
      if blk.throughput_units ≠ "10^6bits/s" then
        .error "Bandwidth unit is not \"10^6bits/s\"."
      else
        processSeries md
          { kpi with
            msize := some md.m_size, rrsize := some (JVal.str "0"),
            throughput := some blk.throughput,
            transrate := some (JVal.str "NaN"),
            latency := some blk.mean_latency } rest
    else if nm ∈ rrNames then
      processSeries md
        { kpi with
          msize := some (JVal.str "0"), rrsize := some md.rr_size,
          throughput := some (JVal.str "NaN"),
          transrate := some blk.transaction_rate,
          latency := some blk.mean_latency } rest
    else
      processSeries md kpi rest

/-- The three ways `_get_kpis_from_raw_data` can end, as seen by its
caller: a returned `(0, perf_kpi)`, a returned `(1, None)`, or an
exception propagating out (the unit-mismatch `raise` is not caught
anywhere in the script). -/
inductive ExtractResult where
  | ok (kpi : PerfKpi)
  | failed
  | raised (msg : String)
deriving DecidableEq

/-- `NetperfTestReporter._get_kpis_from_raw_data`. -/
def getKpisFromRawData : RawData → ExtractResult
  | .emptyStr => .failed
  | .record md =>
    let kpi0 : PerfKpi :=
      { driver := some md.driver, round := some md.rounds,
        test := some md.name, msize := none, rrsize := none,
        throughput := none, transrate := none, latency := none }
    match processSeries md kpi0 md.series_meta with
    | .ok kpi => .ok kpi
    | .error msg => .raised msg

/-- The KPI of a record when extraction succeeds. -/
def extractOk (r : RawData) : Option PerfKpi :=
  match getKpisFromRawData r with
  | .ok kpi => some kpi
  | _ => none

/-! #### The directory scan (`load_raw_data_from_netperf_logs`) -/

/-- What `json.load` does on one file: parse successfully to a raw-data
value, or raise (caught in `_get_raw_data_from_netperf_log`, which then
returns `(1, None)`). -/
inductive ParseOutcome where
  | ok (r : RawData)
  | err
deriving DecidableEq

/-- The content of a regular file in the result directory: an arbitrary
text file (characterized by its parse outcome) or a tar archive holding
named members (each characterized by its parse outcome).  `json.load` on
a tar archive fails. -/
inductive FileContent where
  | jsonText (p : ParseOutcome)
  | archive (members : List (String × ParseOutcome))
deriving DecidableEq

/-- A directory entry is a regular file or a subdirectory. -/
inductive EntryKind where
  | file (content : FileContent)
  | dir
deriving DecidableEq

/-- `os.path.isfile`. -/
def isRegularFile : EntryKind → Bool
  | .file _ => true
  | .dir => false

/-- The members `tar xf` extracts into the scratch folder: the archive's
members; extracting a non-archive fails (its exit status is ignored by
`os.system`) and yields nothing. -/
def entryMembers : EntryKind → List (String × ParseOutcome)
  | .file (.archive ms) => ms
  | _ => []

/-- Parsing a regular file found directly in the result directory. -/
def parseFile : FileContent → ParseOutcome
  | .jsonText p => p
  | .archive _ => .err

/-- The state threaded through the `for fname in os.listdir(...)` loop:
the fixed scratch folder `/tmp/netperf-report.tmp` (`none` while it does
not exist, otherwise its member listing) and the growing
`self.raw_data_list`. -/
structure ScanState where
  scratch : Option (List (String × ParseOutcome))
  acc : List RawData
deriving DecidableEq

/-- One iteration of the scan loop: tarball extraction into the scratch
folder (redirecting the filename to the expected member), the
`.nplog.json` load/parse/append step, then the unconditional scratch
cleanup (`[ -e tmp ] && rm -rf tmp`). -/
def scanStep (s : ScanState) (e : String × EntryKind) : ScanState :=
  let fname := e.1
  let kind := e.2
  let tarball : Bool := pyEndsWith fname ".tar.gz" && isRegularFile kind
  let scratch1 : Option (List (String × ParseOutcome)) :=
    if tarball then some (s.scratch.getD [] ++ entryMembers kind)
    else s.scratch
  let acc1 : List RawData :=
    if tarball then
      -- the filename now points inside the scratch folder
      let target := pyReplace fname ".tar.gz" ".nplog.json"
      if pyEndsWith target ".nplog.json" then
        match (scratch1.getD []).lookup target with
        | some (.ok r) => s.acc ++ [r]
        | some .err => s.acc
        | none => s.acc
      else s.acc
    else
      if pyEndsWith fname ".nplog.json" && isRegularFile kind then
        match kind with
        | .file c =>
          match parseFile c with
          | .ok r => s.acc ++ [r]
          | .err => s.acc
        | .dir => s.acc
      else s.acc
  { scratch := none, acc := acc1 }

/-- The whole scan loop over the directory listing. -/
def scanEntries (s : ScanState) (entries : List (String × EntryKind)) :
    ScanState :=
  entries.foldl scanStep s

/-- The raw-data value one directory entry contributes when the scratch
folder does not pre-exist (it never does: the cleanup runs on every
iteration): the characterization proved in `scanStep_none` below. -/
def parsedOf (e : String × EntryKind) : Option RawData :=
  let fname := e.1
  let kind := e.2
  if pyEndsWith fname ".tar.gz" && isRegularFile kind then
    let target := pyReplace fname ".tar.gz" ".nplog.json"
    if pyEndsWith target ".nplog.json" then
      match (entryMembers kind).lookup target with
      | some (.ok r) => some r
      | _ => none
    else none
  else if pyEndsWith fname ".nplog.json" && isRegularFile kind then
    match kind with
    | .file c =>
      match parseFile c with
      | .ok r => some r
      | .err => none
    | .dir => none
  else none

/-- `NetperfTestReporter.load_raw_data_from_netperf_logs` with the
required `result_path` parameter supplied (the missing-parameter branch,
the only way it returns 1, is outside every claim): the scan runs over the
listing and the method returns 0 regardless of per-file parse failures. -/
def loadRawDataFromNetperfLogs (rawInit : List RawData)
    (entries : List (String × EntryKind)) : Nat × ScanState :=
  (0, scanEntries { scratch := none, acc := rawInit } entries)

/-! #### KPI accumulation (`calculate_performance_kpis`) -/

/-- How the loop of `calculate_performance_kpis` ends: normally
(returning 0), by the `return 1` taken when extraction reports failure,
or by an exception propagating out of extraction.  Each carries the
`self.perf_kpi_list` contents at that point. -/
inductive CalcResult where
  | done (kpis : List PerfKpi)
  | stopped (kpis : List PerfKpi)
  | raised (kpis : List PerfKpi) (msg : String)
deriving DecidableEq

/-- The loop of `calculate_performance_kpis` over `self.raw_data_list`,
appending to `self.perf_kpi_list`. -/
def calcLoop (kpis : List PerfKpi) : List RawData → CalcResult
  | [] => .done kpis
  | r :: rest =>
    match getKpisFromRawData r with
    | .ok k => calcLoop (kpis ++ [k]) rest
    | .failed => .stopped kpis
    | .raised msg => .raised kpis msg

/-! #### Report dataframe construction and formatting -/

/-- The sort value of one cell for `sort_values`: strings compare by code
points, numbers numerically.  A comparison between a number and a string
raises `TypeError` in Python 3/pandas, so the program sorts only frames
whose key columns are kind-homogeneous (`keyColsSortable` below); the
cross-kind case (numbers before strings here) keeps the model total and
is never exercised by a theorem about the sort order, whose statements
carry the `keyColsSortable` restriction. -/
def JVal.sortVal : JVal → Lex (Rat ⊕ List Char)
  | .num q => toLex (Sum.inl q)
  | .str s => toLex (Sum.inr s.data)

/-- The sort value of an optional cell; a missing value is a pandas `NaN`,
placed last by `sort_values` (`na_position='last'`). -/
def oSort (v : Option JVal) : WithTop (Lex (Rat ⊕ List Char)) :=
  match v with
  | none => ⊤
  | some x => some x.sortVal

/-- The lexicographic `sort_values(by=['Driver', 'Test', 'MSize',
'RRSize', 'Round'])` key of a row. -/
def kpiSortKey (k : PerfKpi) :
    Lex (WithTop (Lex (Rat ⊕ List Char)) ×
      Lex (WithTop (Lex (Rat ⊕ List Char)) ×
        Lex (WithTop (Lex (Rat ⊕ List Char)) ×
          Lex (WithTop (Lex (Rat ⊕ List Char)) ×
            WithTop (Lex (Rat ⊕ List Char)))))) :=
  toLex (oSort k.driver,
    toLex (oSort k.test,
      toLex (oSort k.msize,
        toLex (oSort k.rrsize, oSort k.round))))

/-- Row order used by the report sort. -/
def rowLeR (a b : PerfKpi) : Prop :=
  kpiSortKey a ≤ kpiSortKey b

instance : DecidableRel rowLeR := fun a b =>
  inferInstanceAs (Decidable (kpiSortKey a ≤ kpiSortKey b))

instance : IsTotal PerfKpi rowLeR :=
  ⟨fun a b => le_total (kpiSortKey a) (kpiSortKey b)⟩

instance : IsTrans PerfKpi rowLeR :=
  ⟨fun _ _ _ h h2 => le_trans h h2⟩

/-- Row order lifted to indexed rows (`sort_values` carries the original
index along while sorting). -/
def dfRowLe (a b : Nat × PerfKpi) : Prop :=
  rowLeR a.2 b.2

instance : DecidableRel dfRowLe := fun a b =>
  inferInstanceAs (Decidable (rowLeR a.2 b.2))

instance : IsTotal (Nat × PerfKpi) dfRowLe :=
  ⟨fun a b => le_total (kpiSortKey a.2) (kpiSortKey b.2)⟩

instance : IsTrans (Nat × PerfKpi) dfRowLe :=
  ⟨fun _ _ _ h h2 => le_trans h h2⟩

/-- numpy half-to-even rounding of `q` to 4 decimal places, the scalar
operation `DataFrame.round(4)` applies inside numeric-dtype columns
(computed exactly over rationals; the binary floating point used by
pandas is not modelled).  The per-column dtype dispatch of `round(4)` is
modelled by `dfRound4` below. -/
def npRound4 (q : Rat) : Rat :=
  let n : Int := q.num * 10000
  let d : Int := (q.den : Int)
  let f : Int := n.fdiv d
  let r : Int := n - f * d
  let k : Int :=
    if 2 * r < d then f
    else if d < 2 * r then f + 1
    else if f % 2 = 0 then f else f + 1
  mkRat k 10000

/-- Rounding one cell to 4 decimals: numbers are rounded, strings and
missing values kept. -/
def round4Val : Option JVal → Option JVal
  | some (.num q) => some (.num (npRound4 q))
  | v => v

/-- Per-cell 4-decimal rounding of one row.  This coincides with pandas
`DataFrame.round(4)` exactly on single-row frames (there a column is
numeric dtype iff its one cell is a number); on larger frames the
dtype-aware `dfRound4` below is the faithful model. -/
def round4Row (k : PerfKpi) : PerfKpi :=
  { driver := round4Val k.driver, round := round4Val k.round,
    test := round4Val k.test, msize := round4Val k.msize,
    rrsize := round4Val k.rrsize, throughput := round4Val k.throughput,
    transrate := round4Val k.transrate, latency := round4Val k.latency }

/-- Whether a cell keeps its column in pandas numeric dtype: a JSON
number does, and so does a missing value (pandas fills it with the
float NaN); a string forces object dtype on the whole column. -/
def cellIsNum : Option JVal → Bool
  | some (.str _) => false
  | _ => true

/-- Whether a cell is a string or a missing value: a key column whose
cells all satisfy this holds no number, so `sort_values` never compares
a number with a string in it. -/
def cellIsStrOrNaN : Option JVal → Bool
  | some (.num _) => false
  | _ => true

/-- One cell of `DataFrame.round(4)` applied to the frame `rows`: the
cell is rounded exactly when its column has numeric dtype, i.e. when
every cell of that column is a number or a missing value; an object
column (one holding any string) is returned untouched. -/
def round4CellIn (rows : List PerfKpi) (f : PerfKpi → Option JVal)
    (v : Option JVal) : Option JVal :=
  if rows.all fun x => cellIsNum (f x) then round4Val v else v

/-- `DataFrame.round(4)` on one row of the frame `rows`. -/
def round4RowIn (rows : List PerfKpi) (r : PerfKpi) : PerfKpi :=
  { driver := round4CellIn rows (fun x => x.driver) r.driver,
    round := round4CellIn rows (fun x => x.round) r.round,
    test := round4CellIn rows (fun x => x.test) r.test,
    msize := round4CellIn rows (fun x => x.msize) r.msize,
    rrsize := round4CellIn rows (fun x => x.rrsize) r.rrsize,
    throughput := round4CellIn rows (fun x => x.throughput) r.throughput,
    transrate := round4CellIn rows (fun x => x.transrate) r.transrate,
    latency := round4CellIn rows (fun x => x.latency) r.latency }

/-- pandas `DataFrame.round(4)`: only numeric-dtype columns are rounded.
In a table holding both test families the throughput and
transaction-rate columns mix numbers with the string `'NaN'`, are
object dtype, and are left unrounded. -/
def dfRound4 (rows : List PerfKpi) : List PerfKpi :=
  rows.map (round4RowIn rows)

/-- A sort-key column on which pandas `sort_values` does not raise: its
cells are of one kind, numbers never meeting strings (missing cells are
NaN, which `sort_values` places last without comparing them). -/
def colOneKind (rows : List PerfKpi) (f : PerfKpi → Option JVal) : Bool :=
  (rows.all fun r => cellIsNum (f r)) ||
    (rows.all fun r => cellIsStrOrNaN (f r))

/-- All five sort-key columns are sortable.  On a frame violating this,
`sort_values` raises `TypeError` (numpy lexsort argsorts every key
column, even when earlier keys already decide the order) and the
program produces no table. -/
def keyColsSortable (rows : List PerfKpi) : Bool :=
  colOneKind rows (fun r => r.driver) &&
    colOneKind rows (fun r => r.test) &&
    colOneKind rows (fun r => r.msize) &&
    colOneKind rows (fun r => r.rrsize) &&
    colOneKind rows (fun r => r.round)

/-- `NetperfTestReporter._create_report_dataframe`: the KPI list becomes a
dataframe with the default dense integer index (the column selection and
renaming keep all eight KPI fields and only change the displayed headers,
so a row is still modelled by `PerfKpi`). -/
def createReportDataframe (kpis : List PerfKpi) : List (Nat × PerfKpi) :=
  (List.range kpis.length).zip kpis

/-- `NetperfTestReporter._format_report_dataframe`: sort by
(Driver, Test, MSize, RRSize, Round) ascending (pandas uses an unstable
quicksort; a stable insertion sort is used here, which agrees with it up
to the order of key-equal rows), reset to a dense zero-based index
dropping the old one, and apply the dtype-aware `round(4)` (column
dtypes are fixed at frame creation and unchanged by sorting, and
`List.all` is permutation-invariant, so reading them off the sorted
rows is faithful). -/
def formatReportDataframe (df : List (Nat × PerfKpi)) :
    List (Nat × PerfKpi) :=
  let sorted := List.insertionSort dfRowLe df
  (List.range sorted.length).zip (dfRound4 (sorted.map Prod.snd))

/-- `NetperfTestReporter.generate_report_dataframe`. -/
def generateReportDataframe (kpis : List PerfKpi) : List (Nat × PerfKpi) :=
  formatReportDataframe (createReportDataframe kpis)

/-! #### The whole pipeline (`generate_netperf_test_report`) -/

/-- The class-level attributes of `NetperfTestReporter`.  In the source
they are class attributes mutated in place through `self`, so they are
shared by every instance created in the same process; a fresh process
starts from `freshReporterState`. -/
structure ReporterState where
  raw_data_list : List RawData
  perf_kpi_list : List PerfKpi
deriving DecidableEq

/-- The class attributes as initialized at module load. -/
def freshReporterState : ReporterState :=
  { raw_data_list := [], perf_kpi_list := [] }

/-- The observable outcome of one `generate_netperf_test_report` call:
the class attributes afterwards, the process exit code (an uncaught
exception also terminates CPython with status 1), the final scratch
folder state, and the report written to CSV when one is produced
(the CSV write itself is assumed to succeed; its failure branch is
outside every claim). -/
structure RunResult where
  state : ReporterState
  exit_code : Nat
  tmpdir : Option (List (String × ParseOutcome))
  report : Option (List (Nat × PerfKpi))
deriving DecidableEq

/-- `generate_netperf_test_report result_path report_csv` on the current
class-attribute state and directory listing. -/
def generateNetperfTestReport (st : ReporterState)
    (entries : List (String × EntryKind)) : RunResult :=
  let loaded := loadRawDataFromNetperfLogs st.raw_data_list entries
  let st1 : ReporterState := { st with raw_data_list := loaded.2.acc }
  -- load_raw_data_from_netperf_logs returned 0; now the KPI pass
  match calcLoop st.perf_kpi_list st1.raw_data_list with
  | .done kpis =>
    { state := { st1 with perf_kpi_list := kpis }, exit_code := 0,
      tmpdir := loaded.2.scratch,
      report := some (generateReportDataframe kpis) }
  | .stopped kpis =>
    { state := { st1 with perf_kpi_list := kpis }, exit_code := 1,
      tmpdir := loaded.2.scratch, report := none }
  | .raised kpis _ =>
    { state := { st1 with perf_kpi_list := kpis }, exit_code := 1,
      tmpdir := loaded.2.scratch, report := none }

/-! ### Concrete netperf sample data used to instantiate theorems -/

/-- A streaming series block with the expected throughput unit. -/
def sampleStreamBlock : SeriesBlock :=
  { throughput_units := "10^6bits/s", throughput := .num (mkRat 94131 10),
    transaction_rate := .num 0, mean_latency := .num (mkRat 1234 100) }

/-- A streaming series block with a wrong throughput unit. -/
def sampleBadUnitBlock : SeriesBlock :=
  { throughput_units := "10^9bits/s", throughput := .num (mkRat 94131 10),
    transaction_rate := .num 0, mean_latency := .num (mkRat 1234 100) }

/-- A request/response series block. -/
def sampleRRBlock : SeriesBlock :=
  { throughput_units := "10^6bits/s", throughput := .num 0,
    transaction_rate := .num (mkRat 252525 10),
    mean_latency := .num (mkRat 39 10) }

/-- Metadata of a TCP_STREAM test record. -/
def sampleStreamMeta : NpMetadata :=
  { driver := .str "virtio", rounds := .str "1",
    name := .str "TCP_STREAM", m_size := .str "16384",
    rr_size := .str "0",
    series_meta := [("TCP_STREAM", sampleStreamBlock)] }

/-- Metadata of a TCP_RR test record under the same driver. -/
def sampleRRMeta : NpMetadata :=
  { driver := .str "virtio", rounds := .str "1", name := .str "TCP_RR",
    m_size := .str "0", rr_size := .str "1024",
    series_meta := [("TCP_RR", sampleRRBlock)] }

/-- A TCP_STREAM record whose throughput unit is wrong. -/
def sampleBadUnitMeta : NpMetadata :=
  { sampleStreamMeta with
    series_meta := [("TCP_STREAM", sampleBadUnitBlock)] }

/-- The KPI dict extracted from `sampleStreamMeta`. -/
def sampleStreamKpi : PerfKpi :=
  { driver := some (.str "virtio"), round := some (.str "1"),
    test := some (.str "TCP_STREAM"), msize := some (.str "16384"),
    rrsize := some (.str "0"),
    throughput := some (.num (mkRat 94131 10)),
    transrate := some (.str "NaN"),
    latency := some (.num (mkRat 1234 100)) }

/-- The KPI dict extracted from `sampleRRMeta`. -/
def sampleRRKpi : PerfKpi :=
  { driver := some (.str "virtio"), round := some (.str "1"),
    test := some (.str "TCP_RR"), msize := some (.str "0"),
    rrsize := some (.str "1024"), throughput := some (.str "NaN"),
    transrate := some (.num (mkRat 252525 10)),
    latency := some (.num (mkRat 39 10)) }

/-- A TCP_STREAM KPI row whose throughput 9413.12345 is not
4-decimal-exact, used to exhibit the unrounded object column. -/
def unroundedStreamKpi : PerfKpi :=
  { driver := some (.str "virtio"), round := some (.str "1"),
    test := some (.str "TCP_STREAM"), msize := some (.str "16384"),
    rrsize := some (.str "0"),
    throughput := some (.num (mkRat 941312345 100000)),
    transrate := some (.str "NaN"),
    latency := some (.num (mkRat 1234 100)) }

/-- A result-directory entry holding the TCP_STREAM record. -/
def sampleStreamEntry : String × EntryKind :=
  ("stream.nplog.json", .file (.jsonText (.ok (.record sampleStreamMeta))))

/-- A result-directory entry holding the TCP_RR record. -/
def sampleRREntry : String × EntryKind :=
  ("rr.nplog.json", .file (.jsonText (.ok (.record sampleRRMeta))))

/-- A result-directory entry whose file is not valid JSON. -/
def badParseEntry : String × EntryKind :=
  ("broken.nplog.json", .file (.jsonText .err))

/-- A result-directory entry whose file is the JSON document `""`
(it parses to the empty string, which KPI extraction rejects). -/
def emptyJsonEntry : String × EntryKind :=
  ("empty.nplog.json", .file (.jsonText (.ok .emptyStr)))

/-- A result-directory entry holding the wrong-unit record. -/
def badUnitEntry : String × EntryKind :=
  ("badunit.nplog.json", .file (.jsonText (.ok (.record sampleBadUnitMeta))))

/-! ### Helper lemmas -/

theorem exc_bind_ok {α β : Type} (a : α) (f : α → Except String β) :
    (Except.ok a >>= f) = f a := rfl

theorem exc_bind_error {α β : Type} (e : String) (f : α → Except String β) :
    ((Except.error e : Except String α) >>= f) = .error e := rfl

theorem checkStr_ok {params : Params} {k s : String}
    (h : checkStr params k = .ok s) : params.lookup k = some (.str s) := by
  unfold checkStr at h
  split at h <;> simp_all

theorem checkRounds_ok {params : Params} {n : Int}
    (h : checkRounds params = .ok n) :
    params.lookup "rounds" = some (.int n) ∧ 1 ≤ n := by
  unfold checkRounds at h
  split at h
  · exact absurd h (by simp)
  · rename_i n0 heq
    split at h
    · exact absurd h (by simp)
    · rename_i hge
      injection h with h
      subst h
      exact ⟨heq, by omega⟩
  · exact absurd h (by simp)

theorem checkDirect_ok {params : Params} {n : Int}
    (h : checkDirect params = .ok n) :
    params.lookup "direct" = some (.int n) ∧ (n = 0 ∨ n = 1) := by
  unfold checkDirect at h
  split at h
  · exact absurd h (by simp)
  · rename_i n0 heq
    split at h
    · rename_i hc
      injection h with h
      subst h
      exact ⟨heq, hc⟩
    · exact absurd h (by simp)
  · exact absurd h (by simp)

theorem checkNumjobs_ok {params : Params} {n : Int}
    (h : checkNumjobs params = .ok n) :
    params.lookup "numjobs" = some (.int n) := by
  unfold checkNumjobs at h
  split at h <;> simp_all

theorem checkList_ok {params : Params} {k : String} {xs : List PAtom}
    (h : checkList params k = .ok xs) :
    params.lookup k = some (.list xs) := by
  unfold checkList at h
  split at h <;> simp_all

theorem validate_ok_checks {params : Params} {cfg : FioConfig}
    (h : validateParams params = .ok cfg) :
    checkStr params "backend" = .ok cfg.backend ∧
    checkStr params "driver" = .ok cfg.driver ∧
    checkStr params "fs" = .ok cfg.fs ∧
    checkRounds params = .ok cfg.rounds ∧
    checkStr params "filename" = .ok cfg.filename ∧
    checkStr params "runtime" = .ok cfg.runtime ∧
    checkDirect params = .ok cfg.direct ∧
    checkNumjobs params = .ok cfg.numjobs ∧
    checkList params "rw_list" = .ok cfg.rw_list ∧
    checkList params "bs_list" = .ok cfg.bs_list ∧
    checkList params "iodepth_list" = .ok cfg.iodepth_list ∧
    checkStr params "log_path" = .ok cfg.log_path := by
  unfold validateParams at h
  cases h1 : checkStr params "backend" with
  | error e => rw [h1, exc_bind_error] at h; exact absurd h (by simp)
  | ok backend =>
  rw [h1, exc_bind_ok] at h
  cases h2 : checkStr params "driver" with
  | error e => rw [h2, exc_bind_error] at h; exact absurd h (by simp)
  | ok driver =>
  rw [h2, exc_bind_ok] at h
  cases h3 : checkStr params "fs" with
  | error e => rw [h3, exc_bind_error] at h; exact absurd h (by simp)
  | ok fs =>
  rw [h3, exc_bind_ok] at h
  cases h4 : checkRounds params with
  | error e => rw [h4, exc_bind_error] at h; exact absurd h (by simp)
  | ok rounds =>
  rw [h4, exc_bind_ok] at h
  cases h5 : checkStr params "filename" with
  | error e => rw [h5, exc_bind_error] at h; exact absurd h (by simp)
  | ok filename =>
  rw [h5, exc_bind_ok] at h
  cases h6 : checkStr params "runtime" with
  | error e => rw [h6, exc_bind_error] at h; exact absurd h (by simp)
  | ok runtime =>
  rw [h6, exc_bind_ok] at h
  cases h7 : checkDirect params with
  | error e => rw [h7, exc_bind_error] at h; exact absurd h (by simp)
  | ok direct =>
  rw [h7, exc_bind_ok] at h
  cases h8 : checkNumjobs params with
  | error e => rw [h8, exc_bind_error] at h; exact absurd h (by simp)
  | ok numjobs =>
  rw [h8, exc_bind_ok] at h
  cases h9 : checkList params "rw_list" with
  | error e => rw [h9, exc_bind_error] at h; exact absurd h (by simp)
  | ok rw_list =>
  rw [h9, exc_bind_ok] at h
  cases h10 : checkList params "bs_list" with
  | error e => rw [h10, exc_bind_error] at h; exact absurd h (by simp)
  | ok bs_list =>
  rw [h10, exc_bind_ok] at h
  cases h11 : checkList params "iodepth_list" with
  | error e => rw [h11, exc_bind_error] at h; exact absurd h (by simp)
  | ok iodepth_list =>
  rw [h11, exc_bind_ok] at h
  cases h12 : checkStr params "log_path" with
  | error e => rw [h12, exc_bind_error] at h; exact absurd h (by simp)
  | ok log_path =>
  rw [h12, exc_bind_ok] at h
  injection h with h
  subst h
  exact ⟨rfl, rfl, rfl, rfl, rfl, rfl, rfl, rfl, rfl, rfl, rfl, rfl⟩

theorem validate_ok_accepts {params : Params} {cfg : FioConfig}
    (h : validateParams params = .ok cfg) :
    ∀ k ∈ requiredKeys, ∃ v, params.lookup k = some v ∧ fieldAccepts k v := by
  obtain ⟨h1, h2, h3, h4, h5, h6, h7, h8, h9, h10, h11, h12⟩ :=
    validate_ok_checks h
  intro k hk
  simp only [requiredKeys, List.mem_cons, List.not_mem_nil, or_false] at hk
  rcases hk with rfl | rfl | rfl | rfl | rfl | rfl | rfl | rfl | rfl | rfl |
    rfl | rfl
  · exact ⟨_, checkStr_ok h1, ⟨cfg.backend, rfl⟩⟩
  · exact ⟨_, checkStr_ok h2, ⟨cfg.driver, rfl⟩⟩
  · exact ⟨_, checkStr_ok h3, ⟨cfg.fs, rfl⟩⟩
  · exact ⟨_, (checkRounds_ok h4).1, ⟨cfg.rounds, rfl, (checkRounds_ok h4).2⟩⟩
  · exact ⟨_, checkStr_ok h5, ⟨cfg.filename, rfl⟩⟩
  · exact ⟨_, checkStr_ok h6, ⟨cfg.runtime, rfl⟩⟩
  · refine ⟨_, (checkDirect_ok h7).1, ?_⟩
    rcases (checkDirect_ok h7).2 with h0 | h0 <;> rw [h0]
    · exact Or.inl rfl
    · exact Or.inr rfl
  · exact ⟨_, checkNumjobs_ok h8, ⟨cfg.numjobs, rfl⟩⟩
  · exact ⟨_, checkList_ok h9, ⟨cfg.rw_list, rfl⟩⟩
  · exact ⟨_, checkList_ok h10, ⟨cfg.bs_list, rfl⟩⟩
  · exact ⟨_, checkList_ok h11, ⟨cfg.iodepth_list, rfl⟩⟩
  · exact ⟨_, checkStr_ok h12, ⟨cfg.log_path, rfl⟩⟩

theorem checkStr_error_msg {params : Params} {k msg : String}
    (h : checkStr params k = .error msg) :
    msg = "ERROR: Missing required params: params[" ++ k ++ "]" ∨
      msg = "ERROR: params[" ++ k ++ "] must be string." := by
  unfold checkStr at h
  split at h <;> simp_all

theorem checkRounds_error_msg {params : Params} {msg : String}
    (h : checkRounds params = .error msg) :
    msg = "ERROR: Missing required params: params[rounds]" ∨
      msg = "ERROR: params[rounds] must be an integer >= 1." := by
  unfold checkRounds at h
  split at h <;> first
    | simp_all
    | (split at h <;> simp_all)

theorem checkDirect_error_msg {params : Params} {msg : String}
    (h : checkDirect params = .error msg) :
    msg = "ERROR: Missing required params: params[direct]" ∨
      msg = "ERROR: params[direct] must be integer 0 or 1." := by
  unfold checkDirect at h
  split at h <;> first
    | simp_all
    | (split at h <;> simp_all)

theorem checkNumjobs_error_msg {params : Params} {msg : String}
    (h : checkNumjobs params = .error msg) :
    msg = "ERROR: Missing required params: params[numjobs]" ∨
      msg = "ERROR: params[numjobs] must be an integer." := by
  unfold checkNumjobs at h
  split at h <;> simp_all

theorem checkList_error_msg {params : Params} {k msg : String}
    (h : checkList params k = .error msg) :
    msg = "ERROR: Missing required params: params[" ++ k ++ "]" ∨
      msg = "ERROR: params[" ++ k ++ "] must be a list or tuple." := by
  unfold checkList at h
  split at h <;> simp_all

theorem validate_error_mem {params : Params} {msg : String}
    (h : validateParams params = .error msg) :
    msg ∈ validationMessages := by
  unfold validateParams at h
  cases h1 : checkStr params "backend" with
  | error e =>
    rw [h1, exc_bind_error] at h
    injection h with h
    subst h
    rcases checkStr_error_msg h1 with rfl | rfl <;> decide
  | ok backend =>
  rw [h1, exc_bind_ok] at h
  cases h2 : checkStr params "driver" with
  | error e =>
    rw [h2, exc_bind_error] at h
    injection h with h
    subst h
    rcases checkStr_error_msg h2 with rfl | rfl <;> decide
  | ok driver =>
  rw [h2, exc_bind_ok] at h
  cases h3 : checkStr params "fs" with
  | error e =>
    rw [h3, exc_bind_error] at h
    injection h with h
    subst h
    rcases checkStr_error_msg h3 with rfl | rfl <;> decide
  | ok fs =>
  rw [h3, exc_bind_ok] at h
  cases h4 : checkRounds params with
  | error e =>
    rw [h4, exc_bind_error] at h
    injection h with h
    subst h
    rcases checkRounds_error_msg h4 with rfl | rfl <;> decide
  | ok rounds =>
  rw [h4, exc_bind_ok] at h
  cases h5 : checkStr params "filename" with
  | error e =>
    rw [h5, exc_bind_error] at h
    injection h with h
    subst h
    rcases checkStr_error_msg h5 with rfl | rfl <;> decide
  | ok filename =>
  rw [h5, exc_bind_ok] at h
  cases h6 : checkStr params "runtime" with
  | error e =>
    rw [h6, exc_bind_error] at h
    injection h with h
    subst h
    rcases checkStr_error_msg h6 with rfl | rfl <;> decide
  | ok runtime =>
  rw [h6, exc_bind_ok] at h
  cases h7 : checkDirect params with
  | error e =>
    rw [h7, exc_bind_error] at h
    injection h with h
    subst h
    rcases checkDirect_error_msg h7 with rfl | rfl <;> decide
  | ok direct =>
  rw [h7, exc_bind_ok] at h
  cases h8 : checkNumjobs params with
  | error e =>
    rw [h8, exc_bind_error] at h
    injection h with h
    subst h
    rcases checkNumjobs_error_msg h8 with rfl | rfl <;> decide
  | ok numjobs =>
  rw [h8, exc_bind_ok] at h
  cases h9 : checkList params "rw_list" with
  | error e =>
    rw [h9, exc_bind_error] at h
    injection h with h
    subst h
    rcases checkList_error_msg h9 with rfl | rfl <;> decide
  | ok rw_list =>
  rw [h9, exc_bind_ok] at h
  cases h10 : checkList params "bs_list" with
  | error e =>
    rw [h10, exc_bind_error] at h
    injection h with h
    subst h
    rcases checkList_error_msg h10 with rfl | rfl <;> decide
  | ok bs_list =>
  rw [h10, exc_bind_ok] at h
  cases h11 : checkList params "iodepth_list" with
  | error e =>
    rw [h11, exc_bind_error] at h
    injection h with h
    subst h
    rcases checkList_error_msg h11 with rfl | rfl <;> decide
  | ok iodepth_list =>
  rw [h11, exc_bind_ok] at h
  cases h12 : checkStr params "log_path" with
  | error e =>
    rw [h12, exc_bind_error] at h
    injection h with h
    subst h
    rcases checkStr_error_msg h12 with rfl | rfl <;> decide
  | ok log_path =>
  rw [h12, exc_bind_ok] at h
  exact Except.noConfusion h

/-! ### Claims about the sweep runner -/

/-- C2: for every valid SweepConfig, `_split_fio_tests` enumerates exactly
rounds × |bs_list| × |iodepth_list| × |rw_list| cases, and the enumeration
equals the Cartesian product of `range(1, rounds+1)`, `bs_list`,
`iodepth_list`, `rw_list` in that component order, the I/O pattern varying
fastest. -/
theorem c2_sweep_enumeration (cfg : FioConfig) (h : 1 ≤ cfg.rounds) :
    (splitFioTests cfg).length =
      cfg.rounds.toNat * cfg.bs_list.length * cfg.iodepth_list.length *
        cfg.rw_list.length
  ∧ splitFioTests cfg =
      ((((List.range' 1 cfg.rounds.toNat) ×ˢ cfg.bs_list) ×ˢ
          cfg.iodepth_list) ×ˢ cfg.rw_list).map
        (fun x => (x.1.1.1, x.1.1.2, x.1.2, x.2)) := by
  have hp : splitFioTests cfg =
      ((((List.range' 1 cfg.rounds.toNat) ×ˢ cfg.bs_list) ×ˢ
          cfg.iodepth_list) ×ˢ cfg.rw_list).map
        (fun x => (x.1.1.1, x.1.1.2, x.1.2, x.2)) := by
    simp only [splitFioTests, SProd.sprod, List.product, List.map_flatMap,
      List.flatMap_assoc, List.flatMap_map, List.map_map,
      Function.comp_def]
  refine ⟨?_, hp⟩
  rw [hp, List.length_map, List.length_product, List.length_product,
    List.length_product, List.length_range']

/-- Witness for C2 at a concrete configuration. -/
theorem c2_sweep_enumeration_check :
    (splitFioTests sampleFioConfig).length =
      sampleFioConfig.rounds.toNat * sampleFioConfig.bs_list.length *
        sampleFioConfig.iodepth_list.length * sampleFioConfig.rw_list.length
  ∧ splitFioTests sampleFioConfig =
      ((((List.range' 1 sampleFioConfig.rounds.toNat) ×ˢ
          sampleFioConfig.bs_list) ×ˢ
          sampleFioConfig.iodepth_list) ×ˢ sampleFioConfig.rw_list).map
        (fun x => (x.1.1.1, x.1.1.2, x.1.2, x.2)) :=
  c2_sweep_enumeration sampleFioConfig (by decide)

/-- C4: contrary to the claim, a sweep-runner CLI invocation that supplies
every parameter with a valid value, the direct-access flag included, does
not pass validation: click delivers `--direct` as the string `"1"`, the
check `params['direct'] in (0, 1)` compares it against the integers 0 and
1 and fails, so the run prints the direct error and exits with code 1. -/
theorem c4_direct_string_rejected :
    validateParams c4Invocation =
      .error "ERROR: params[direct] must be integer 0 or 1."
  ∧ runFioTestModel c4Invocation "20180808000000" = (1, []) :=
  ⟨rfl, rfl⟩

/-- C7: a params dict missing a required field, or holding a value a check
rejects, makes the runner print a field-naming error and exit with code 1
before any file-system side effect. -/
theorem c7_validation_failfast (params : Params) (ts : String)
    (h : ∃ k ∈ requiredKeys, params.lookup k = none ∨
          ∃ v, params.lookup k = some v ∧ ¬ fieldAccepts k v) :
    ∃ msg, validateParams params = .error msg ∧ msg ∈ validationMessages ∧
      runFioTestModel params ts = (1, []) := by
  cases hv : validateParams params with
  | error msg =>
    refine ⟨msg, rfl, validate_error_mem hv, ?_⟩
    unfold runFioTestModel
    rw [hv]
  | ok cfg =>
    exfalso
    obtain ⟨k, hk, hbad⟩ := h
    obtain ⟨v, hlook, hfa⟩ := validate_ok_accepts hv k hk
    rcases hbad with hnone | ⟨v2, hlook2, hnfa⟩
    · rw [hlook] at hnone
      exact Option.noConfusion hnone
    · rw [hlook] at hlook2
      injection hlook2 with h2
      subst h2
      exact hnfa hfa

/-- Witness for C7: the empty params dict is missing `backend`. -/
theorem c7_validation_failfast_check :
    ∃ msg, validateParams [] = .error msg ∧ msg ∈ validationMessages ∧
      runFioTestModel [] "20180808000000" = (1, []) :=
  c7_validation_failfast [] "20180808000000"
    ⟨"backend", by decide, Or.inl rfl⟩

/-- C10: `numjobs` is rejected exactly when the key is absent or the value
is not an integer; every integer value, 0 and negatives included, passes
validation and is embedded verbatim in the fio command; the 1–65535 bound
exists only on the click CLI flag. -/
theorem c10_numjobs_validation :
    (∀ (params : Params) (n : Int),
        checkNumjobs params = .ok n ↔
          params.lookup "numjobs" = some (.int n))
  ∧ (∀ (cfg : FioConfig) (rd : Nat) (bs iodepth rw1 : PAtom) (ts : String),
        (" --numjobs=" ++ toString cfg.numjobs) ∈
          fioCommandPieces cfg rd bs iodepth rw1 ts)
  ∧ (∀ n : Int, checkNumjobs [("numjobs", PVal.int n)] = .ok n)
  ∧ ¬ numjobsFlagAccepts 0 ∧ ¬ numjobsFlagAccepts (-5)
  ∧ checkNumjobs [("numjobs", PVal.int 0)] = .ok 0
  ∧ checkNumjobs [("numjobs", PVal.int (-5))] = .ok (-5) := by
  refine ⟨?_, ?_, ?_, ?_, ?_, rfl, rfl⟩
  · intro params n
    constructor
    · intro h
      exact checkNumjobs_ok h
    · intro h
      unfold checkNumjobs
      rw [h]
  · intro cfg rd bs iodepth rw1 ts
    simp [fioCommandPieces]
  · intro n
    rfl
  · exact fun h => absurd h.1 (by decide)
  · exact fun h => absurd h.1 (by decide)

/-! ### Helper lemmas about the netperf model -/

theorem scanStep_none (acc : List RawData) (e : String × EntryKind) :
    scanStep { scratch := none, acc := acc } e =
      { scratch := none, acc := acc ++ (parsedOf e).toList } := by
  rcases e with ⟨fname, kind⟩
  cases h1 : pyEndsWith fname ".tar.gz" && isRegularFile kind
  · cases h3 : pyEndsWith fname ".nplog.json" && isRegularFile kind
    · simp [scanStep, parsedOf, h1, h3]
    · cases kind with
      | dir => simp [isRegularFile] at h3
      | file c =>
        cases hc : parseFile c with
        | ok r => simp [scanStep, parsedOf, h1, h3, hc]
        | err => simp [scanStep, parsedOf, h1, h3, hc]
  · cases h2 : pyEndsWith (pyReplace fname ".tar.gz" ".nplog.json")
      ".nplog.json"
    · simp [scanStep, parsedOf, h1, h2]
    · cases hl : (entryMembers kind).lookup
        (pyReplace fname ".tar.gz" ".nplog.json") with
      | none => simp [scanStep, parsedOf, h1, h2, hl]
      | some p =>
        cases p with
        | ok r => simp [scanStep, parsedOf, h1, h2, hl]
        | err => simp [scanStep, parsedOf, h1, h2, hl]

theorem scanEntries_none (acc : List RawData)
    (entries : List (String × EntryKind)) :
    scanEntries { scratch := none, acc := acc } entries =
      { scratch := none, acc := acc ++ entries.filterMap parsedOf } := by
  induction entries generalizing acc with
  | nil => simp [scanEntries]
  | cons e rest ih =>
    simp only [scanEntries, List.foldl_cons] at *
    rw [scanStep_none, ih]
    cases hp : parsedOf e with
    | none => simp [hp]
    | some r => simp [hp]

theorem calcLoop_all_ok (l : List RawData) :
    ∀ kpis, (∀ r ∈ l, (extractOk r).isSome) →
      calcLoop kpis l = .done (kpis ++ l.filterMap extractOk) := by
  induction l with
  | nil =>
    intro kpis _
    simp [calcLoop]
  | cons r rest ih =>
    intro kpis h
    have hr := h r (List.mem_cons_self r rest)
    cases hk : getKpisFromRawData r with
    | ok k =>
      have hek : extractOk r = some k := by simp [extractOk, hk]
      simp only [calcLoop, hk]
      rw [ih (kpis ++ [k]) (fun x hx => h x (List.mem_cons_of_mem _ hx))]
      simp [List.filterMap_cons, hek]
    | failed => simp [extractOk, hk] at hr
    | raised msg => simp [extractOk, hk] at hr

theorem calcLoop_not_done (l : List RawData) :
    ∀ kpis, (∃ r ∈ l, extractOk r = none) →
      ∀ ks, calcLoop kpis l ≠ .done ks := by
  induction l with
  | nil =>
    intro kpis h ks
    simp at h
  | cons r rest ih =>
    intro kpis h ks
    cases hk : getKpisFromRawData r with
    | ok k =>
      simp only [calcLoop, hk]
      apply ih
      rcases h with ⟨x, hx, hxn⟩
      rcases List.mem_cons.mp hx with rfl | hx2
      · simp [extractOk, hk] at hxn
      · exact ⟨x, hx2, hxn⟩
    | failed => simp [calcLoop, hk]
    | raised msg => simp [calcLoop, hk]

theorem generateReport_fails (st : ReporterState)
    (entries : List (String × EntryKind))
    (h : ∃ r ∈ st.raw_data_list ++ entries.filterMap parsedOf,
        extractOk r = none) :
    (generateNetperfTestReport st entries).exit_code = 1 ∧
      (generateNetperfTestReport st entries).report = none := by
  unfold generateNetperfTestReport loadRawDataFromNetperfLogs
  rw [scanEntries_none]
  cases hc : calcLoop st.perf_kpi_list
      (st.raw_data_list ++ entries.filterMap parsedOf) with
  | done ks => exact absurd hc (calcLoop_not_done _ _ h ks)
  | stopped ks => simp [hc]
  | raised ks msg => simp [hc]

theorem orderedInsert_map_snd (a : Nat × PerfKpi)
    (l : List (Nat × PerfKpi)) :
    (List.orderedInsert dfRowLe a l).map Prod.snd =
      List.orderedInsert rowLeR a.2 (l.map Prod.snd) := by
  induction l with
  | nil => rfl
  | cons b t ih =>
    simp only [List.orderedInsert, List.map_cons]
    by_cases h : dfRowLe a b
    · have h2 : rowLeR a.2 b.2 := h
      rw [if_pos h, if_pos h2, List.map_cons, List.map_cons]
    · have h2 : ¬ rowLeR a.2 b.2 := h
      rw [if_neg h, if_neg h2, List.map_cons, ih]

theorem insertionSort_map_snd (l : List (Nat × PerfKpi)) :
    (List.insertionSort dfRowLe l).map Prod.snd =
      List.insertionSort rowLeR (l.map Prod.snd) := by
  induction l with
  | nil => rfl
  | cons a t ih =>
    simp only [List.insertionSort, List.map_cons]
    rw [orderedInsert_map_snd, ih]

theorem perm_all_eq {α : Type} {l l' : List α} (h : l.Perm l')
    (p : α → Bool) : l.all p = l'.all p := by
  simp only [List.all_eq, decide_eq_decide]
  constructor
  · intro hx x hm
    exact hx x (h.mem_iff.mpr hm)
  · intro hx x hm
    exact hx x (h.mem_iff.mp hm)

theorem round4RowIn_congr {l l' : List PerfKpi} (h : l.Perm l') :
    round4RowIn l = round4RowIn l' := by
  funext r
  unfold round4RowIn round4CellIn
  simp only [perm_all_eq h]

theorem dfRound4_perm {l l' : List PerfKpi} (h : l.Perm l') :
    (dfRound4 l).Perm (dfRound4 l') := by
  unfold dfRound4
  rw [round4RowIn_congr h]
  exact h.map _

theorem round4CellIn_self (k : PerfKpi) (f : PerfKpi → Option JVal) :
    round4CellIn [k] f (f k) = round4Val (f k) := by
  unfold round4CellIn
  cases hv : f k with
  | none => simp [hv, cellIsNum]
  | some j =>
    cases j with
    | num q => simp [hv, cellIsNum]
    | str s => simp [hv, cellIsNum, round4Val]

theorem dfRound4_single (k : PerfKpi) : dfRound4 [k] = [round4Row k] := by
  unfold dfRound4
  simp only [List.map_cons, List.map_nil]
  congr 1
  unfold round4RowIn round4Row
  congr 1
  all_goals exact round4CellIn_self k _

theorem generateReportDataframe_eq (kpis : List PerfKpi) :
    generateReportDataframe kpis =
      (List.range kpis.length).zip
        (dfRound4 (List.insertionSort rowLeR kpis)) := by
  unfold generateReportDataframe formatReportDataframe createReportDataframe
  dsimp only
  have hz : (((List.range kpis.length).zip kpis).map Prod.snd) = kpis :=
    List.map_snd_zip _ _ (by simp)
  have hmap :
      (List.insertionSort dfRowLe
        ((List.range kpis.length).zip kpis)).map Prod.snd =
        List.insertionSort rowLeR kpis := by
    rw [insertionSort_map_snd, hz]
  have hlen :
      (List.insertionSort dfRowLe
        ((List.range kpis.length).zip kpis)).length = kpis.length := by
    rw [(List.perm_insertionSort dfRowLe _).length_eq]
    simp
  rw [hlen, hmap]

/-! ### Claims about the report generator -/

/-- C1: a KpiTuple extracted from a record whose SERIES_META key is a
streaming identifier has rrsize `"0"`, transrate `"NaN"` and msize taken
from metadata; one extracted from a record whose key is an RR-family
identifier has msize `"0"`, throughput `"NaN"` and rrsize taken from
metadata. -/
theorem c1_kpi_families (md : NpMetadata) (nm : String) (blk : SeriesBlock) :
    (nm ∈ streamingNames →
      ∀ kpi, getKpisFromRawData
          (.record { md with series_meta := [(nm, blk)] }) = .ok kpi →
        kpi.rrsize = some (.str "0") ∧ kpi.transrate = some (.str "NaN") ∧
          kpi.msize = some md.m_size)
  ∧ (nm ∈ rrNames →
      ∀ kpi, getKpisFromRawData
          (.record { md with series_meta := [(nm, blk)] }) = .ok kpi →
        kpi.msize = some (.str "0") ∧ kpi.throughput = some (.str "NaN") ∧
          kpi.rrsize = some md.rr_size) := by
  constructor
  · intro hs kpi h
    by_cases hu : blk.throughput_units = "10^6bits/s"
    · simp only [getKpisFromRawData, processSeries, hs, hu, if_pos,
        ite_true, ne_eq, not_true_eq_false, ite_false] at h
      injection h with h
      subst h
      exact ⟨rfl, rfl, rfl⟩
    · simp only [getKpisFromRawData, processSeries, hs, hu, if_pos,
        ite_true, ne_eq, not_false_eq_true, ite_true] at h
      exact ExtractResult.noConfusion h
  · intro hr kpi h
    have hns : nm ∉ streamingNames := by
      revert hr
      simp only [rrNames, streamingNames, List.mem_cons, List.not_mem_nil,
        or_false]
      rintro (rfl | rfl | rfl) <;> simp
    simp only [getKpisFromRawData, processSeries, hns, hr, if_pos,
      ite_true, ite_false] at h
    injection h with h
    subst h
    exact ⟨rfl, rfl, rfl⟩

/-- Witness for C1: both families at concrete records. -/
theorem c1_kpi_families_check :
    (sampleStreamKpi.rrsize = some (.str "0") ∧
      sampleStreamKpi.transrate = some (.str "NaN") ∧
      sampleStreamKpi.msize = some sampleStreamMeta.m_size)
  ∧ (sampleRRKpi.msize = some (.str "0") ∧
      sampleRRKpi.throughput = some (.str "NaN") ∧
      sampleRRKpi.rrsize = some sampleRRMeta.rr_size) :=
  ⟨(c1_kpi_families sampleStreamMeta "TCP_STREAM" sampleStreamBlock).1
      (by decide) sampleStreamKpi (by decide),
    (c1_kpi_families sampleRRMeta "TCP_RR" sampleRRBlock).2
      (by decide) sampleRRKpi (by decide)⟩

/-- C3: a file failing JSON parse is skipped and the directory scan still
returns success with the remaining files loaded in order, while any KPI
extraction failure on a loaded record makes the whole report generation
fail with no report produced. -/
theorem c3_parse_skip_extract_abort (rawInit : List RawData)
    (entries : List (String × EntryKind)) (st : ReporterState) :
    loadRawDataFromNetperfLogs rawInit entries =
      (0, { scratch := none,
            acc := rawInit ++ entries.filterMap parsedOf })
  ∧ ((∃ r ∈ st.raw_data_list ++ entries.filterMap parsedOf,
        extractOk r = none) →
      (generateNetperfTestReport st entries).exit_code = 1 ∧
        (generateNetperfTestReport st entries).report = none) := by
  constructor
  · unfold loadRawDataFromNetperfLogs
    rw [scanEntries_none]
  · exact generateReport_fails st entries

/-- Witness for C3: a broken file is skipped while a good one loads, and
an extraction failure aborts a run. -/
theorem c3_parse_skip_extract_abort_check :
    loadRawDataFromNetperfLogs [] [badParseEntry, sampleRREntry] =
      (0, { scratch := none,
            acc := [] ++
              [badParseEntry, sampleRREntry].filterMap parsedOf })
  ∧ ((generateNetperfTestReport freshReporterState
        [emptyJsonEntry]).exit_code = 1 ∧
      (generateNetperfTestReport freshReporterState
        [emptyJsonEntry]).report = none) :=
  ⟨(c3_parse_skip_extract_abort [] [badParseEntry, sampleRREntry]
      freshReporterState).1,
    (c3_parse_skip_extract_abort []
      [emptyJsonEntry] freshReporterState).2
      ⟨.emptyStr, by decide, by decide⟩⟩

/-- C5: a streaming record with a throughput unit other than
`10^6bits/s` makes KPI extraction raise, never yields a KpiTuple, and
makes report generation fail whenever such a record is among the loaded
raw data. -/
theorem c5_unit_mismatch (md : NpMetadata) (nm : String) (blk : SeriesBlock)
    (st : ReporterState) (entries : List (String × EntryKind))
    (h1 : nm ∈ streamingNames)
    (h2 : blk.throughput_units ≠ "10^6bits/s") :
    getKpisFromRawData (.record { md with series_meta := [(nm, blk)] }) =
      .raised "Bandwidth unit is not \"10^6bits/s\"."
  ∧ (∀ kpi, getKpisFromRawData
      (.record { md with series_meta := [(nm, blk)] }) ≠ .ok kpi)
  ∧ ((RawData.record { md with series_meta := [(nm, blk)] }) ∈
        st.raw_data_list ++ entries.filterMap parsedOf →
      (generateNetperfTestReport st entries).exit_code = 1 ∧
        (generateNetperfTestReport st entries).report = none) := by
  have hg : getKpisFromRawData
      (.record { md with series_meta := [(nm, blk)] }) =
      .raised "Bandwidth unit is not \"10^6bits/s\"." := by
    simp [getKpisFromRawData, processSeries, h1, h2]
  refine ⟨hg, ?_, ?_⟩
  · intro kpi h
    rw [hg] at h
    exact ExtractResult.noConfusion h
  · intro hmem
    exact generateReport_fails st entries
      ⟨_, hmem, by simp [extractOk, hg]⟩

/-- Witness for C5 at a concrete wrong-unit record. -/
theorem c5_unit_mismatch_check :
    getKpisFromRawData (.record { sampleBadUnitMeta with
        series_meta := [("TCP_STREAM", sampleBadUnitBlock)] }) =
      .raised "Bandwidth unit is not \"10^6bits/s\"."
  ∧ (∀ kpi, getKpisFromRawData (.record { sampleBadUnitMeta with
      series_meta := [("TCP_STREAM", sampleBadUnitBlock)] }) ≠ .ok kpi)
  ∧ ((RawData.record { sampleBadUnitMeta with
        series_meta := [("TCP_STREAM", sampleBadUnitBlock)] }) ∈
        freshReporterState.raw_data_list ++
          [badUnitEntry].filterMap parsedOf →
      (generateNetperfTestReport freshReporterState
        [badUnitEntry]).exit_code = 1 ∧
        (generateNetperfTestReport freshReporterState
          [badUnitEntry]).report = none) :=
  c5_unit_mismatch sampleBadUnitMeta "TCP_STREAM" sampleBadUnitBlock
    freshReporterState [badUnitEntry] (by decide) (by decide)

/-- C6 counterexample: in the claim's own mixed TCP_RR/TCP_STREAM table
the throughput column mixes a float with the string `'NaN'`, so the
column is object dtype and `DataFrame.round(4)` leaves it untouched:
the formatted table keeps the streaming row's throughput at 9413.12345,
a value 4-decimal rounding would change — not all numeric values are
rounded to 4 decimal places. -/
theorem c6_rounding_counterexample :
    (generateReportDataframe [unroundedStreamKpi, sampleRRKpi]).map
        Prod.snd = [sampleRRKpi, unroundedStreamKpi]
  ∧ unroundedStreamKpi.throughput = some (.num (mkRat 941312345 100000))
  ∧ npRound4 (mkRat 941312345 100000) ≠ mkRat 941312345 100000 :=
  ⟨by decide, rfl, by decide⟩

/-- C6 amended: for every KPI list whose five sort-key columns each hold
cells of one kind (on any other frame `sort_values` raises TypeError
and the program produces no table), the report table is the dtype-aware
`round(4)` of the key-sorted rows — only columns whose every cell is
numeric are rounded, while object columns, such as throughput and
transaction-rate in any mixed-family table, are left unrounded — its
index is reset to the dense sequence 0,1,2,…, and its rows are a
permutation of the rounded input rows; on the concrete
TCP_RR/TCP_STREAM pair under one driver the table has exactly those two
rows, TCP_RR first, with indices 0 and 1. -/
theorem c6_report_format_amended (kpis : List PerfKpi)
    (h : keyColsSortable kpis = true) :
    (generateReportDataframe kpis).map Prod.fst = List.range kpis.length
  ∧ (generateReportDataframe kpis).map Prod.snd =
      dfRound4 (List.insertionSort rowLeR kpis)
  ∧ List.Sorted rowLeR (List.insertionSort rowLeR kpis)
  ∧ ((generateReportDataframe kpis).map Prod.snd).Perm (dfRound4 kpis)
  ∧ generateReportDataframe [sampleStreamKpi, sampleRRKpi] =
      [(0, sampleRRKpi), (1, sampleStreamKpi)]
  ∧ generateReportDataframe [unroundedStreamKpi, sampleRRKpi] =
      [(0, sampleRRKpi), (1, unroundedStreamKpi)] := by
  have hlen : (dfRound4 (List.insertionSort rowLeR kpis)).length =
      kpis.length := by
    unfold dfRound4
    rw [List.length_map, (List.perm_insertionSort rowLeR kpis).length_eq]
  refine ⟨?_, ?_, List.sorted_insertionSort rowLeR kpis, ?_, by decide,
    by decide⟩
  · rw [generateReportDataframe_eq]
    exact List.map_fst_zip _ _ (by rw [hlen, List.length_range])
  · rw [generateReportDataframe_eq]
    rw [List.map_snd_zip _ _ (by rw [hlen, List.length_range])]
  · rw [generateReportDataframe_eq]
    rw [List.map_snd_zip _ _ (by rw [hlen, List.length_range])]
    exact dfRound4_perm (List.perm_insertionSort rowLeR kpis)

/-- Witness for C6's amended statement at a concrete sortable frame. -/
theorem c6_report_format_amended_check :
    (generateReportDataframe [sampleStreamKpi, sampleRRKpi]).map
        Prod.fst = List.range [sampleStreamKpi, sampleRRKpi].length
  ∧ (generateReportDataframe [sampleStreamKpi, sampleRRKpi]).map
        Prod.snd =
      dfRound4 (List.insertionSort rowLeR [sampleStreamKpi, sampleRRKpi])
  ∧ List.Sorted rowLeR
      (List.insertionSort rowLeR [sampleStreamKpi, sampleRRKpi])
  ∧ ((generateReportDataframe [sampleStreamKpi, sampleRRKpi]).map
        Prod.snd).Perm (dfRound4 [sampleStreamKpi, sampleRRKpi])
  ∧ generateReportDataframe [sampleStreamKpi, sampleRRKpi] =
      [(0, sampleRRKpi), (1, sampleStreamKpi)]
  ∧ generateReportDataframe [unroundedStreamKpi, sampleRRKpi] =
      [(0, sampleRRKpi), (1, unroundedStreamKpi)] :=
  c6_report_format_amended [sampleStreamKpi, sampleRRKpi] (by decide)

/-- C8 counterexample: with the class-level lists shared across
instances, a second report generation in the same process does not
behave as if the first had never happened: its raw-data list, KPI list
and report differ from a fresh run over the same input directory. -/
theorem c8_counterexample :
    ¬ ((generateNetperfTestReport
          (generateNetperfTestReport freshReporterState
            [sampleStreamEntry]).state
          [sampleRREntry]).state.raw_data_list =
        (generateNetperfTestReport freshReporterState
          [sampleRREntry]).state.raw_data_list
      ∧ (generateNetperfTestReport
          (generateNetperfTestReport freshReporterState
            [sampleStreamEntry]).state
          [sampleRREntry]).state.perf_kpi_list =
        (generateNetperfTestReport freshReporterState
          [sampleRREntry]).state.perf_kpi_list
      ∧ (generateNetperfTestReport
          (generateNetperfTestReport freshReporterState
            [sampleStreamEntry]).state
          [sampleRREntry]).report =
        (generateNetperfTestReport freshReporterState
          [sampleRREntry]).report) :=
  fun h => absurd h.1 (by decide)

/-- C8 amended: the raw-data and KPI lists are class attributes shared by
every reporter instance in the process, so a run started from state `st`
appends to them: its raw list is `st`'s raw list extended with the newly
parsed files, its KPI list is `st`'s KPI list extended with KPIs
recomputed from the whole raw list, and its report is built from that
accumulated KPI list — a second run therefore reports rows originating
from the first run's input files. -/
theorem c8_shared_state_accumulation (st : ReporterState)
    (entries : List (String × EntryKind))
    (h : ∀ r ∈ st.raw_data_list ++ entries.filterMap parsedOf,
        (extractOk r).isSome) :
    (generateNetperfTestReport st entries).state.raw_data_list =
      st.raw_data_list ++ entries.filterMap parsedOf
  ∧ (generateNetperfTestReport st entries).state.perf_kpi_list =
      st.perf_kpi_list ++
        (st.raw_data_list ++ entries.filterMap parsedOf).filterMap
          extractOk
  ∧ (generateNetperfTestReport st entries).report =
      some (generateReportDataframe
        (st.perf_kpi_list ++
          (st.raw_data_list ++ entries.filterMap parsedOf).filterMap
            extractOk)) := by
  unfold generateNetperfTestReport loadRawDataFromNetperfLogs
  rw [scanEntries_none]
  dsimp only
  rw [calcLoop_all_ok _ _ h]
  exact ⟨rfl, rfl, rfl⟩

/-- Witness for C8's amended statement: a second run starting from the
state left by a first run that processed one file. -/
theorem c8_shared_state_accumulation_check :
    (generateNetperfTestReport
        { raw_data_list := [.record sampleRRMeta],
          perf_kpi_list := [sampleRRKpi] }
        [sampleStreamEntry]).state.raw_data_list =
      [RawData.record sampleRRMeta] ++
        [sampleStreamEntry].filterMap parsedOf
  ∧ (generateNetperfTestReport
        { raw_data_list := [.record sampleRRMeta],
          perf_kpi_list := [sampleRRKpi] }
        [sampleStreamEntry]).state.perf_kpi_list =
      [sampleRRKpi] ++
        ([RawData.record sampleRRMeta] ++
          [sampleStreamEntry].filterMap parsedOf).filterMap extractOk
  ∧ (generateNetperfTestReport
        { raw_data_list := [.record sampleRRMeta],
          perf_kpi_list := [sampleRRKpi] }
        [sampleStreamEntry]).report =
      some (generateReportDataframe
        ([sampleRRKpi] ++
          ([RawData.record sampleRRMeta] ++
            [sampleStreamEntry].filterMap parsedOf).filterMap
              extractOk)) :=
  c8_shared_state_accumulation
    { raw_data_list := [.record sampleRRMeta],
      perf_kpi_list := [sampleRRKpi] }
    [sampleStreamEntry] (by decide)

/-- C9: a directory holding one `.tar.gz` archive containing a valid
result log named after the archive is extracted, the log is parsed,
exactly one KPI row appears in the report, the run exits 0, and the
scratch folder does not exist after the scan. -/
theorem c9_tarball_scan (nm : String) (r : RawData) (k : PerfKpi)
    (h1 : pyEndsWith nm ".tar.gz" = true)
    (h2 : pyEndsWith (pyReplace nm ".tar.gz" ".nplog.json")
      ".nplog.json" = true)
    (h3 : getKpisFromRawData r = .ok k) :
    (generateNetperfTestReport freshReporterState
        [(nm, .file (.archive
          [(pyReplace nm ".tar.gz" ".nplog.json",
            .ok r)]))]).state.raw_data_list = [r]
  ∧ (generateNetperfTestReport freshReporterState
        [(nm, .file (.archive
          [(pyReplace nm ".tar.gz" ".nplog.json", .ok r)]))]).report =
      some [(0, round4Row k)]
  ∧ (generateNetperfTestReport freshReporterState
        [(nm, .file (.archive
          [(pyReplace nm ".tar.gz" ".nplog.json", .ok r)]))]).tmpdir =
      none
  ∧ (generateNetperfTestReport freshReporterState
        [(nm, .file (.archive
          [(pyReplace nm ".tar.gz" ".nplog.json", .ok r)]))]).exit_code =
      0 := by
  have hp : parsedOf (nm, .file (.archive
      [(pyReplace nm ".tar.gz" ".nplog.json", .ok r)])) = some r := by
    simp [parsedOf, h1, h2, entryMembers, isRegularFile, List.lookup]
  have hok : ∀ x ∈ ([] : List RawData) ++
      [(nm, (EntryKind.file (.archive
        [(pyReplace nm ".tar.gz" ".nplog.json",
          ParseOutcome.ok r)])))].filterMap parsedOf,
      (extractOk x).isSome := by
    simp only [List.filterMap_cons, List.filterMap_nil, hp,
      List.nil_append]
    intro x hx
    rcases List.mem_singleton.mp hx with rfl
    simp [extractOk, h3]
  unfold generateNetperfTestReport loadRawDataFromNetperfLogs
    freshReporterState
  rw [scanEntries_none]
  dsimp only
  rw [calcLoop_all_ok _ _ hok]
  simp only [List.filterMap_cons, List.filterMap_nil, hp,
    List.nil_append]
  refine ⟨by trivial, ?_, by trivial, by trivial⟩
  have he : extractOk r = some k := by simp [extractOk, h3]
  simp [he, generateReportDataframe_eq, List.insertionSort,
    List.orderedInsert, dfRound4_single, List.range_succ]

/-- Witness for C9 at a concrete archive. -/
theorem c9_tarball_scan_check :
    (generateNetperfTestReport freshReporterState
        [("result.tar.gz", .file (.archive
          [(pyReplace "result.tar.gz" ".tar.gz" ".nplog.json",
            .ok (.record sampleRRMeta))]))]).state.raw_data_list =
      [RawData.record sampleRRMeta]
  ∧ (generateNetperfTestReport freshReporterState
        [("result.tar.gz", .file (.archive
          [(pyReplace "result.tar.gz" ".tar.gz" ".nplog.json",
            .ok (.record sampleRRMeta))]))]).report =
      some [(0, round4Row sampleRRKpi)]
  ∧ (generateNetperfTestReport freshReporterState
        [("result.tar.gz", .file (.archive
          [(pyReplace "result.tar.gz" ".tar.gz" ".nplog.json",
            .ok (.record sampleRRMeta))]))]).tmpdir = none
  ∧ (generateNetperfTestReport freshReporterState
        [("result.tar.gz", .file (.archive
          [(pyReplace "result.tar.gz" ".tar.gz" ".nplog.json",
            .ok (.record sampleRRMeta))]))]).exit_code = 0 :=
  c9_tarball_scan "result.tar.gz" (.record sampleRRMeta) sampleRRKpi
    (by decide) (by decide) (by decide)

end VirtPerf
